import Mathlib

/-!
# BLE central: discovery and connect/disconnect cycle (`src/main.c`)

Shallow embedding of the callbacks of `src/main.c`.

* The application globals (`default_conn`, `address_list`, `address_list_iter`) are the
  fields of `State`; every call into the Bluetooth stack or to `printk` is appended to
  `State.trace`, so "which requests were issued, in which order" is a property of the trace.
* The Bluetooth stack is not part of the repository. What its functions return is taken
  from an `Env`: each answer may depend on the whole history of calls made so far.
* Pointers to `struct bt_conn` are `Option Nat` (`none` is `NULL`).
* `int` return codes are `Int`, `uint8_t` values are `Nat`, `int8_t` values are `Int`
  (theorems state the range where it matters).
* A read outside the bytes an object holds has no defined result: `strncmp` returns `none`
  there, and the functions that call it pass `none` on.
* `multi_connect` calls itself; its model takes a bound on the nesting depth and says
  whether the outermost call returned or the bound was reached.
-/

namespace BleCentral

/-! ## Constants of the Zephyr headers -/

/-- Modelled from the spec: the "connectable-undirected" advertisement type. The defining
header (`zephyr/bluetooth/gap.h`) is not under `src/`; the value is the one of that header. -/
def BT_GAP_ADV_TYPE_ADV_IND : Nat := 0x00

/-- Modelled from the spec: the "connectable-directed" advertisement type
(`zephyr/bluetooth/gap.h`, not under `src/`). -/
def BT_GAP_ADV_TYPE_ADV_DIRECT_IND : Nat := 0x01

/-- Modelled from the spec: the element type "complete local name" of an advertisement
payload (`zephyr/bluetooth/gap.h`, not under `src/`). -/
def BT_DATA_NAME_COMPLETE : Nat := 0x09

/-- Modelled from the spec: the reason code of a voluntary teardown, "remote user
terminated connection" (`zephyr/bluetooth/hci_types.h`, not under `src/`). -/
def BT_HCI_ERR_REMOTE_USER_TERM_CONN : Nat := 0x13

/-- Modelled from the spec: the fixed length of the human-readable address rendering
(`zephyr/bluetooth/addr.h`, not under `src/`). -/
def BT_ADDR_LE_STR_LEN : Nat := 30

/-! ## Data model -/

/-- The type `bt_addr_le_t`: an address-type tag and the six address bytes. -/
structure bt_addr_le_t where
  type : Nat
  a : List Nat
deriving DecidableEq, Repr

/-- The type `struct bt_data`: one element of an advertisement payload. `data` is the memory
`data->data` points to (all bytes from there to the end of the buffer), `data_len` the
declared length of the element. -/
structure bt_data where
  type : Nat
  data_len : Nat
  data : List Nat
deriving DecidableEq, Repr

/-- The type `struct net_buf_simple`: `data` holds the `len` unread bytes, `__buf` is the
pointer to the backing storage (`none` is `NULL`). -/
structure net_buf_simple where
  data : List Nat
  __buf : Option Nat
deriving DecidableEq, Repr

/-- The callback arguments that `src/main.c` hands to `bt_le_scan_start`: the function
`device_found` (in `start_scan`), and the value of the assignment expression
`new_device=my_devices_found` (in `multi_connect`). That expression has the type and value
of the `bool new_device` after the assignment, so what is passed is that `bool` converted
to a callback pointer, not the address of `my_devices_found`. -/
inductive ScanCb where
  | device_found
  | new_device (value : Bool)
deriving DecidableEq, Repr

/-- The `printk` calls of `src/main.c`, one constructor per format string, with the
arguments that are printed. -/
inductive Msg where
  /-- Format `"Create conn to DXC failed (%d)"`. -/
  | create_conn_failed (err : Int)
  /-- Format `"Device found: %s (RSSI %d)"`. -/
  | device_found (addr_str : List Nat) (rssi : Int)
  /-- Format `"Scanning failed to start (err %d)"`. -/
  | scan_failed (err : Int)
  /-- Format `"Scanning successfully started"`. -/
  | scan_started
  /-- Format `"Failed to connect to %s (%u)"`. -/
  | failed_to_connect (addr : List Nat) (err : Nat)
  /-- Format `"Connected: %s"`. -/
  | connected (addr : List Nat)
  /-- Format `"Disconnected: %s (reason 0x%02x)"`. -/
  | disconnected (addr : List Nat) (reason : Nat)
  /-- Format `"all compatible devices have been added"`. -/
  | all_added
deriving DecidableEq, Repr

/-- One call from `src/main.c` into the Bluetooth stack or to `printk`. -/
inductive Event where
  | bt_le_scan_stop
  | bt_conn_le_create (addr : bt_addr_le_t)
  | bt_le_scan_start (cb : ScanCb)
  | bt_conn_disconnect (conn : Option Nat) (reason : Nat)
  | bt_conn_unref (conn : Option Nat)
  | bt_data_parse (ad : List Nat)
  | printk (m : Msg)
deriving DecidableEq, Repr

/-- The globals of `src/main.c` and the history of calls made so far. -/
structure State where
  default_conn : Option Nat
  address_list : List (List Nat)
  address_list_iter : Nat
  trace : List Event
deriving DecidableEq, Repr

/-- The state at program start: the globals are zero-initialised, nothing was called. -/
def State.init : State :=
  { default_conn := none
    address_list := List.replicate 3 (List.replicate BT_ADDR_LE_STR_LEN 0)
    address_list_iter := 0
    trace := [] }

/-- Append one call to the history. -/
def State.log (s : State) (e : Event) : State :=
  { s with trace := s.trace ++ [e] }

/-- What the Bluetooth stack answers. Every answer may depend on the history of calls made
before it.

* `bt_le_scan_stop`, `bt_le_scan_start`: the returned error code (0 is success);
* `bt_conn_le_create`: the returned error code and, for error code 0, the handle stored
  through the `conn` out-parameter;
* `bt_addr_le_to_str`: the characters rendered for an address;
* `bt_conn_get_dst`: the peer address of a connection;
* `indeterminate`: the value a caller reads when `my_parse_cb` reaches its closing brace
  without a `return` (the C standard leaves it unspecified). -/
structure Env where
  bt_le_scan_stop : List Event → Int
  bt_conn_le_create : List Event → bt_addr_le_t → Int × Nat
  bt_le_scan_start : List Event → Int
  bt_addr_le_to_str : bt_addr_le_t → List Nat
  bt_conn_get_dst : Option Nat → bt_addr_le_t
  indeterminate : List Event → Bool

/-! ## Library functions used by `src/main.c` -/

/-- The C library `strncmp` on byte strings: compare at most `n` characters, stop after a
NUL. `none` when a character outside one of the two objects would be read. -/
def strncmp : List Nat → List Nat → Nat → Option Int
  | _, _, 0 => some 0
  | c1 :: s1, c2 :: s2, n + 1 =>
    if c1 ≠ c2 then some ((c1 : Int) - (c2 : Int))
    else if c1 = 0 then some 0
    else strncmp s1 s2 n
  | _, _, _ + 1 => none

/-- The call `bt_conn_le_create(addr, ..., &default_conn)`: the request is recorded; on
success the new handle is stored in `default_conn`, on failure `default_conn` is not
written. Returns the error code. -/
def bt_conn_le_create (env : Env) (addr : bt_addr_le_t) (s : State) : Int × State :=
  let r := env.bt_conn_le_create s.trace addr
  let s1 := s.log (.bt_conn_le_create addr)
  if r.1 = 0 then (r.1, { s1 with default_conn := some r.2 }) else (r.1, s1)

/-- Modelled from the spec: the loop of the Name Parser's driver (Zephyr's `bt_data_parse`,
not under `src/`): a single pass over the length-type-value elements of the payload that
hands each element to the callback and stops as soon as the callback answers `false`.
As in Zephyr, the pass also ends at a zero length byte, at a length byte larger than what
is left, and when fewer than two bytes are left. The first argument bounds the number of
iterations. -/
def bt_data_parse_loop (func : bt_data → State → Option (Bool × State)) :
    Nat → List Nat → State → Option State
  | 0, _, s => some s
  | fuel + 1, ad, s =>
    match ad with
    | len :: ty :: rest =>
      if len = 0 then some s
      else if (ty :: rest).length < len then some s
      else
        match func { type := ty, data_len := len - 1, data := rest } s with
        | none => none
        | some (false, s1) => some s1
        | some (true, s1) => bt_data_parse_loop func fuel (rest.drop (len - 1)) s1
    | _ => some s

/-- Modelled from the spec: the Name Parser's driver `bt_data_parse(ad, func, user_data)`
(Zephyr, not under `src/`). The call is recorded, then the loop runs; every iteration
consumes at least two bytes, so `ad.data.length` iterations always suffice. -/
def bt_data_parse (ad : net_buf_simple) (func : bt_data → State → Option (Bool × State))
    (s : State) : Option State :=
  bt_data_parse_loop func ad.data.length ad.data (s.log (.bt_data_parse ad.data))

/-! ## The functions of `src/main.c` -/

/-- The local `char bt_dname[] = "DXC";` of `my_parse_cb`: four bytes, the last one NUL. -/
def bt_dname : List Nat := [68, 88, 67, 0]

/-- The function `start_scan` (`src/main.c`, lines 93-105). -/
def start_scan (env : Env) (s : State) : State :=
  let err := env.bt_le_scan_start s.trace
  let s1 := s.log (.bt_le_scan_start .device_found)
  if err ≠ 0 then s1.log (.printk (.scan_failed err))
  else s1.log (.printk .scan_started)

/-- The function `my_parse_cb` (`src/main.c`, lines 35-63). The result is the returned
`bool` and the state afterwards. After a name match with a successful `bt_le_scan_stop`
the function ends without a `return`; the value the caller then reads is
`env.indeterminate`. -/
def my_parse_cb (env : Env) (data : bt_data) (user_data : bt_addr_le_t) (s : State) :
    Option (Bool × State) :=
  let addr := user_data
  if data.type = BT_DATA_NAME_COMPLETE then
    match strncmp bt_dname data.data data.data_len with
    | none => none
    | some c =>
      if c = 0 then
        let s1 := s.log .bt_le_scan_stop
        if env.bt_le_scan_stop s.trace ≠ 0 then some (false, s1)
        else
          let r := bt_conn_le_create env addr s1
          let err := r.1
          let s3 :=
            if err ≠ 0 then start_scan env (r.2.log (.printk (.create_conn_failed err)))
            else r.2
          some (env.indeterminate s3.trace, s3)
      else some (true, s)
  else some (true, s)

/-- The function `device_found` (`src/main.c`, lines 65-91). -/
def device_found (env : Env) (addr : bt_addr_le_t) (rssi : Int) (type : Nat)
    (ad : net_buf_simple) (s : State) : Option State :=
  if s.default_conn ≠ none then some s
  else if type ≠ BT_GAP_ADV_TYPE_ADV_IND ∧ type ≠ BT_GAP_ADV_TYPE_ADV_DIRECT_IND then some s
  else
    let addr_str := env.bt_addr_le_to_str addr
    let s1 := s.log (.printk (.device_found addr_str rssi))
    if rssi < -50 then some s1
    else bt_data_parse ad (fun data => my_parse_cb env data addr) s1

/-- The function `connected` (`src/main.c`, lines 107-130). -/
def connected (env : Env) (conn : Option Nat) (err : Nat) (s : State) : State :=
  let addr := env.bt_addr_le_to_str (env.bt_conn_get_dst conn)
  if err ≠ 0 then
    let s1 := s.log (.printk (.failed_to_connect addr err))
    let s2 := s1.log (.bt_conn_unref s1.default_conn)
    let s3 := { s2 with default_conn := none }
    start_scan env s3
  else if conn ≠ s.default_conn then s
  else
    let s1 := s.log (.printk (.connected addr))
    s1.log (.bt_conn_disconnect conn BT_HCI_ERR_REMOTE_USER_TERM_CONN)

/-- The function `disconnected` (`src/main.c`, lines 132-148). -/
def disconnected (env : Env) (conn : Option Nat) (reason : Nat) (s : State) : State :=
  if conn ≠ s.default_conn then s
  else
    let addr := env.bt_addr_le_to_str (env.bt_conn_get_dst conn)
    let s1 := s.log (.printk (.disconnected addr reason))
    let s2 := s1.log (.bt_conn_unref s1.default_conn)
    let s3 := { s2 with default_conn := none }
    start_scan env s3

/-- The assignment `address_list[i][j] = c` on the array `char address_list[3][...]`. -/
def address_list_set (l : List (List Nat)) (i j c : Nat) : List (List Nat) :=
  l.set i ((l.getD i []).set j c)

/-- The function `my_devices_found` (`src/main.c`, lines 204-269). The result is the
returned `bool` and the state afterwards. `*addr_str` is the first character that
`bt_addr_le_to_str` wrote into `addr_str`: the first rendered character, or the
terminating NUL when nothing was rendered. -/
def my_devices_found (env : Env) (addr : bt_addr_le_t) (rssi : Int) (type : Nat)
    (ad : net_buf_simple) (s : State) : Option (Bool × State) :=
  if ad.__buf = none then some (false, s)
  else
    let s0 := { s with default_conn := none }
    if type ≠ BT_GAP_ADV_TYPE_ADV_IND ∧ type ≠ BT_GAP_ADV_TYPE_ADV_DIRECT_IND then
      some (true, s0)
    else
      let addr_str := env.bt_addr_le_to_str addr
      let s1 := s0.log (.printk (.device_found addr_str rssi))
      if rssi < -50 then some (true, s1)
      else if s1.address_list_iter ≥ 3 then some (false, s1)
      else
        let s2 := { s1 with
          address_list :=
            address_list_set s1.address_list s1.address_list_iter 0 (addr_str.headD 0)
          address_list_iter := s1.address_list_iter + 1 }
        match bt_data_parse ad (fun data => my_parse_cb env data addr) s2 with
        | none => none
        | some s3 => some (true, s3)

/-- The function `multi_connect` (`src/main.c`, lines 178-201). The first argument bounds the
depth of the recursion: the result is `.ok` with the state in which the outermost call
returns, or `.error` with the state reached when the bound is hit while calls are still
nested. The callback argument of `bt_le_scan_start` is the assignment expression
`new_device=my_devices_found`: it stores the function pointer, which is not null, in the
`bool new_device`, so `new_device` is `true`, and the value passed as callback is that
`bool`. -/
def multi_connect (env : Env) : Nat → State → Except State State
  | 0, s => .error s
  | depth + 1, s =>
    let new_device : Bool := true
    let err := env.bt_le_scan_start s.trace
    let s1 := s.log (.bt_le_scan_start (.new_device new_device))
    if err ≠ 0 then .ok (s1.log (.printk (.scan_failed err)))
    else
      let s2 := s1.log (.printk .scan_started)
      if new_device = true then multi_connect env depth s2
      else .ok (s2.log (.printk .all_added))

/-- Whether a call is a request to the radio: stop-scan, connect, start-scan, disconnect. -/
def Event.isRequest : Event → Bool
  | .bt_le_scan_stop => true
  | .bt_conn_le_create _ => true
  | .bt_le_scan_start _ => true
  | .bt_conn_disconnect _ _ => true
  | _ => false

/-- Whether a call is a `bt_le_scan_start`. -/
def Event.isScanStart : Event → Bool
  | .bt_le_scan_start _ => true
  | _ => false

/-- Whether a call is a call of the name parser's driver `bt_data_parse`. -/
def Event.isParse : Event → Bool
  | .bt_data_parse _ => true
  | _ => false

/-! ## Concrete inputs used by the evaluations below -/

/-- A device address. -/
def addr0 : bt_addr_le_t := { type := 0, a := [0x11, 0x22, 0x33, 0x44, 0x55, 0x66] }

/-- A Bluetooth stack in which every request succeeds and `bt_conn_le_create` hands out
handle 1; the value read after the missing `return` of `my_parse_cb` is `false`. -/
def envOk : Env :=
  { bt_le_scan_stop := fun _ => 0
    bt_conn_le_create := fun _ _ => (0, 1)
    bt_le_scan_start := fun _ => 0
    bt_addr_le_to_str := fun _ => []
    bt_conn_get_dst := fun _ => addr0
    indeterminate := fun _ => false }

/-- A Bluetooth stack whose `bt_le_scan_stop` fails with -5 (`-EIO`). -/
def envStopFails : Env := { envOk with bt_le_scan_stop := fun _ => -5 }

/-- A Bluetooth stack whose `bt_conn_le_create` fails with -12 (`-ENOMEM`), and where the
value read after the missing `return` of `my_parse_cb` is `true`. -/
def envCreateFails : Env :=
  { envOk with
    bt_conn_le_create := fun _ _ => (-12, 0)
    indeterminate := fun _ => true }

/-- A state in which the connection with handle 1 is tracked. -/
def stateLive : State := { State.init with default_conn := some 1 }

/-- A state in which the registry is full and no connection is tracked. -/
def stateFull : State := { State.init with address_list_iter := 3 }

/-- A Bluetooth stack whose `bt_le_scan_start` fails with -120 (`-EALREADY`). -/
def envScanStartFails : Env := { envOk with bt_le_scan_start := fun _ => -120 }

/-- A Bluetooth stack that renders every address as "C0:FF:EE" and otherwise answers like
`envOk`. -/
def envRender : Env :=
  { envOk with bt_addr_le_to_str := fun _ => [67, 48, 58, 70, 70, 58, 69, 69] }

/-- The calls made by `n` nested invocations of `multi_connect` whose `bt_le_scan_start`
succeeds every time. -/
def nestedScanStarts : Nat → List Event
  | 0 => []
  | n + 1 =>
    [.bt_le_scan_start (.new_device true), .printk .scan_started] ++ nestedScanStarts n

/-- A state in which the connection with handle 7 is tracked. -/
def stateLive7 : State := { State.init with default_conn := some 7 }

/-! ## Auxiliary facts -/

theorem strncmp_isSome (s1 : List Nat) (hz : 0 ∈ s1) :
    ∀ (s2 : List Nat) (n : Nat), n ≤ s2.length → ∃ c, strncmp s1 s2 n = some c := by
  induction s1 with
  | nil => simp at hz
  | cons c1 t ih =>
    intro s2 n hn
    cases n with
    | zero => exact ⟨0, by simp [strncmp]⟩
    | succ n =>
      cases s2 with
      | nil => simp at hn
      | cons c2 t2 =>
        simp only [strncmp]
        by_cases h12 : c1 = c2
        · by_cases h0 : c1 = 0
          · exact ⟨0, by simp [h12, h0]; intro h; exact absurd (h12 ▸ h0) (by simp [h])⟩
          · have hz' : 0 ∈ t := by
              rcases List.mem_cons.mp hz with h | h
              · exact absurd h.symm h0
              · exact h
            obtain ⟨c, hc⟩ := ih hz' t2 n (by simpa using hn)
            exact ⟨c, by simp [h12, h0, hc]; intro h; exact absurd (h12.trans h) h0⟩
        · exact ⟨(c1 : Int) - (c2 : Int), by simp [h12]⟩

/-- A relation between states that holds across every callback invocation holds across
the whole pass of `bt_data_parse_loop`, and the pass returns a state, provided the callback
returns whenever the element it is given is backed by `data_len` bytes. -/
theorem bt_data_parse_loop_inv (func : bt_data → State → Option (Bool × State))
    (R : State → State → Prop) (hrefl : ∀ s, R s s)
    (htrans : ∀ a b c, R a b → R b c → R a c)
    (hf : ∀ data s, data.data_len ≤ data.data.length →
      ∃ b s', func data s = some (b, s') ∧ R s s') :
    ∀ (fuel : Nat) (ad : List Nat) (s : State),
      ∃ s', bt_data_parse_loop func fuel ad s = some s' ∧ R s s' := by
  intro fuel
  induction fuel with
  | zero => intro ad s; exact ⟨s, by simp [bt_data_parse_loop], hrefl s⟩
  | succ fuel ih =>
    intro ad s
    match ad with
    | [] => exact ⟨s, by simp [bt_data_parse_loop], hrefl s⟩
    | [_] => exact ⟨s, by simp [bt_data_parse_loop], hrefl s⟩
    | len :: ty :: rest =>
      by_cases h0 : len = 0
      · exact ⟨s, by simp [bt_data_parse_loop, h0], hrefl s⟩
      · by_cases hlen : (ty :: rest).length < len
        · exact ⟨s, by simp only [bt_data_parse_loop, h0, hlen, if_true, if_false], hrefl s⟩
        · have hb : len - 1 ≤ rest.length := by
            simp only [List.length_cons] at hlen
            omega
          obtain ⟨b, s1, hs1, hR1⟩ :=
            hf { type := ty, data_len := len - 1, data := rest } s hb
          cases b with
          | false =>
            exact ⟨s1, by simp only [bt_data_parse_loop, h0, hlen, if_false, hs1], hR1⟩
          | true =>
            obtain ⟨s2, hs2, hR2⟩ := ih (rest.drop (len - 1)) s1
            exact ⟨s2, by simp only [bt_data_parse_loop, h0, hlen, if_false, hs1, hs2],
              htrans _ _ _ hR1 hR2⟩

theorem log_countP_isParse (s : State) (e : Event) :
    (s.log e).trace.countP Event.isParse
      = s.trace.countP Event.isParse + (if e.isParse then 1 else 0) := by
  cases h : e.isParse <;> simp [State.log, List.countP_append, List.countP_cons, h]

theorem start_scan_countP_isParse (env : Env) (s : State) :
    (start_scan env s).trace.countP Event.isParse = s.trace.countP Event.isParse := by
  unfold start_scan
  dsimp only
  split <;> simp [log_countP_isParse, Event.isParse]

theorem bt_conn_le_create_countP_isParse (env : Env) (addr : bt_addr_le_t) (s : State) :
    (bt_conn_le_create env addr s).2.trace.countP Event.isParse
      = s.trace.countP Event.isParse := by
  unfold bt_conn_le_create
  dsimp only
  split <;> simp [log_countP_isParse, Event.isParse]

/-- On an element backed by `data_len` bytes `my_parse_cb` returns, and it never calls
`bt_data_parse` itself. -/
theorem my_parse_cb_defined (env : Env) (addr : bt_addr_le_t) (data : bt_data) (s : State)
    (h : data.data_len ≤ data.data.length) :
    ∃ b s', my_parse_cb env data addr s = some (b, s') ∧
      s'.trace.countP Event.isParse = s.trace.countP Event.isParse := by
  obtain ⟨c, hc⟩ := strncmp_isSome bt_dname (by simp [bt_dname]) data.data data.data_len h
  unfold my_parse_cb
  simp only [hc]
  split
  · split
    · split
      · exact ⟨_, _, rfl, by simp [log_countP_isParse, Event.isParse]⟩
      · refine ⟨_, _, rfl, ?_⟩
        split
        · simp [start_scan_countP_isParse, bt_conn_le_create_countP_isParse,
            log_countP_isParse, Event.isParse]
        · simp [bt_conn_le_create_countP_isParse, log_countP_isParse, Event.isParse]
    · exact ⟨_, _, rfl, rfl⟩
  · exact ⟨_, _, rfl, rfl⟩

/-- The function `device_found` always returns: no call it makes reads outside a buffer. The
number of `bt_data_parse` calls in the history grows by exactly those `device_found` makes
itself. -/
theorem bt_data_parse_defined (env : Env) (addr : bt_addr_le_t) (ad : net_buf_simple)
    (s : State) :
    ∃ s', bt_data_parse ad (fun data => my_parse_cb env data addr) s = some s' ∧
      s'.trace.countP Event.isParse = s.trace.countP Event.isParse + 1 := by
  obtain ⟨s', hs', hR⟩ := bt_data_parse_loop_inv (fun data => my_parse_cb env data addr)
    (fun a b => b.trace.countP Event.isParse = a.trace.countP Event.isParse)
    (fun _ => rfl) (fun a b c h1 h2 => h2.trans h1)
    (fun data s h => my_parse_cb_defined env addr data s h)
    ad.data.length ad.data (s.log (.bt_data_parse ad.data))
  refine ⟨s', hs', ?_⟩
  rw [hR]
  simp [State.log, List.countP_append, List.countP_cons, Event.isParse]

/-- The iteration bound of `bt_data_parse_loop` is never what ends the pass: any bound of at
least the number of bytes left gives the same result. -/
theorem bt_data_parse_loop_fuel (func : bt_data → State → Option (Bool × State)) :
    ∀ (fuel1 fuel2 : Nat) (ad : List Nat) (s : State),
      ad.length ≤ fuel1 → ad.length ≤ fuel2 →
      bt_data_parse_loop func fuel1 ad s = bt_data_parse_loop func fuel2 ad s := by
  intro fuel1
  induction fuel1 with
  | zero =>
    intro fuel2 ad s h1 _
    have had : ad = [] := List.length_eq_zero.mp (Nat.le_zero.mp h1)
    subst had
    cases fuel2 <;> simp [bt_data_parse_loop]
  | succ fuel1 ih =>
    intro fuel2 ad s h1 h2
    cases fuel2 with
    | zero =>
      have had : ad = [] := List.length_eq_zero.mp (Nat.le_zero.mp h2)
      subst had
      simp [bt_data_parse_loop]
    | succ fuel2 =>
      match ad with
      | [] => simp [bt_data_parse_loop]
      | [_] => simp [bt_data_parse_loop]
      | len :: ty :: rest =>
        have hd : (rest.drop (len - 1)).length ≤ rest.length := by
          simp only [List.length_drop]
          omega
        simp only [List.length_cons] at h1 h2
        have e := fun s1 => ih fuel2 (rest.drop (len - 1)) s1 (by omega) (by omega)
        simp only [bt_data_parse_loop, e]

/-! ## The claims -/

/-- C1: while a connection is tracked (`default_conn` is not `NULL`), `device_found` returns
the state it was given, for every address, RSSI, advertisement type and payload: the history
of calls is unchanged (no `bt_data_parse`, no stop-scan, connect or start-scan request) and
so are `default_conn`, `address_list` and `address_list_iter`. -/
theorem C1_device_found_live_session_frame (env : Env) (addr : bt_addr_le_t) (rssi : Int)
    (type : Nat) (ad : net_buf_simple) (s : State) (hlive : s.default_conn ≠ none) :
    device_found env addr rssi type ad s = some s := by
  simp [device_found, hlive]

theorem C1_device_found_live_session_frame_witness :
    stateLive.default_conn ≠ none ∧
    device_found envOk addr0 (-40) BT_GAP_ADV_TYPE_ADV_IND
      { data := [4, 9, 68, 88, 67], __buf := some 1 } stateLive = some stateLive :=
  ⟨by decide, C1_device_found_live_session_frame envOk addr0 (-40) BT_GAP_ADV_TYPE_ADV_IND
    { data := [4, 9, 68, 88, 67], __buf := some 1 } stateLive (by decide)⟩

/-- C2: for every report whose advertisement type is neither `BT_GAP_ADV_TYPE_ADV_IND` nor
`BT_GAP_ADV_TYPE_ADV_DIRECT_IND`, for every RSSI, payload and state (session live or not),
`device_found` returns the state it was given: the payload is not handed to
`bt_data_parse`, no request is issued, and `default_conn` and the registry are unchanged. -/
theorem C2_device_found_not_connectable_frame (env : Env) (addr : bt_addr_le_t) (rssi : Int)
    (type : Nat) (ad : net_buf_simple) (s : State)
    (h1 : type ≠ BT_GAP_ADV_TYPE_ADV_IND) (h2 : type ≠ BT_GAP_ADV_TYPE_ADV_DIRECT_IND) :
    device_found env addr rssi type ad s = some s := by
  unfold device_found
  split
  · rfl
  · simp [h1, h2]

theorem C2_device_found_not_connectable_frame_witness :
    (3 : Nat) ≠ BT_GAP_ADV_TYPE_ADV_IND ∧ (3 : Nat) ≠ BT_GAP_ADV_TYPE_ADV_DIRECT_IND ∧
    device_found envOk addr0 (-30) 3 { data := [4, 9, 68, 88, 67], __buf := some 1 }
      State.init = some State.init :=
  ⟨by decide, by decide, C2_device_found_not_connectable_frame envOk addr0 (-30) 3
    { data := [4, 9, 68, 88, 67], __buf := some 1 } State.init (by decide) (by decide)⟩

/-- C3: for every report of connectable type delivered to `device_found` while no session
is live, and every integer RSSI (so every `int8_t` value): below -50 the report is rejected
after the "Device found" line is printed (no request, `default_conn` and registry
unchanged); from -50 upwards `device_found` is the call of `bt_data_parse` with
`my_parse_cb` on the payload. `device_found` returns in both cases, and the history has
gained a `bt_data_parse` call exactly when -50 ≤ RSSI. -/
theorem C3_device_found_rssi_threshold (env : Env) (addr : bt_addr_le_t) (rssi : Int)
    (type : Nat) (ad : net_buf_simple) (s : State) (hidle : s.default_conn = none)
    (htype : type = BT_GAP_ADV_TYPE_ADV_IND ∨ type = BT_GAP_ADV_TYPE_ADV_DIRECT_IND) :
    (rssi < -50 → device_found env addr rssi type ad s
      = some (s.log (.printk (.device_found (env.bt_addr_le_to_str addr) rssi)))) ∧
    (-50 ≤ rssi → device_found env addr rssi type ad s
      = bt_data_parse ad (fun data => my_parse_cb env data addr)
          (s.log (.printk (.device_found (env.bt_addr_le_to_str addr) rssi)))) ∧
    ∃ s', device_found env addr rssi type ad s = some s' ∧
      (s'.trace.countP Event.isParse = s.trace.countP Event.isParse + 1 ↔ -50 ≤ rssi) := by
  have hty : ¬ (type ≠ BT_GAP_ADV_TYPE_ADV_IND ∧ type ≠ BT_GAP_ADV_TYPE_ADV_DIRECT_IND) := by
    rcases htype with h | h <;> simp [h]
  have hlt : rssi < -50 → device_found env addr rssi type ad s
      = some (s.log (.printk (.device_found (env.bt_addr_le_to_str addr) rssi))) := by
    intro h
    simp [device_found, hidle, hty, h]
  have hge : -50 ≤ rssi → device_found env addr rssi type ad s
      = bt_data_parse ad (fun data => my_parse_cb env data addr)
          (s.log (.printk (.device_found (env.bt_addr_le_to_str addr) rssi))) := by
    intro h
    simp [device_found, hidle, hty, not_lt.mpr h]
  refine ⟨hlt, hge, ?_⟩
  by_cases h : rssi < -50
  · refine ⟨_, hlt h, ?_⟩
    simp only [log_countP_isParse, Event.isParse]
    constructor
    · intro hc
      simp at hc
    · intro hc
      omega
  · have h' : -50 ≤ rssi := not_lt.mp h
    obtain ⟨s', hs', hcount⟩ := bt_data_parse_defined env addr ad
      (s.log (.printk (.device_found (env.bt_addr_le_to_str addr) rssi)))
    refine ⟨s', (hge h').trans hs', ?_⟩
    simp only [log_countP_isParse, Event.isParse] at hcount
    constructor
    · intro _
      exact h'
    · intro _
      simpa using hcount

theorem C3_device_found_rssi_threshold_witness :
    State.init.default_conn = none ∧
    (BT_GAP_ADV_TYPE_ADV_IND = BT_GAP_ADV_TYPE_ADV_IND ∨
      BT_GAP_ADV_TYPE_ADV_IND = BT_GAP_ADV_TYPE_ADV_DIRECT_IND) ∧
    device_found envOk addr0 (-51) BT_GAP_ADV_TYPE_ADV_IND
        { data := [4, 9, 68, 88, 67], __buf := some 1 } State.init
      = some (State.init.log (.printk (.device_found (envOk.bt_addr_le_to_str addr0) (-51)))) ∧
    device_found envOk addr0 (-50) BT_GAP_ADV_TYPE_ADV_IND
        { data := [4, 9, 68, 88, 67], __buf := some 1 } State.init
      = bt_data_parse { data := [4, 9, 68, 88, 67], __buf := some 1 }
          (fun data => my_parse_cb envOk data addr0)
          (State.init.log (.printk (.device_found (envOk.bt_addr_le_to_str addr0) (-50)))) :=
  ⟨rfl, Or.inl rfl,
    (C3_device_found_rssi_threshold envOk addr0 (-51) BT_GAP_ADV_TYPE_ADV_IND
      { data := [4, 9, 68, 88, 67], __buf := some 1 } State.init rfl (Or.inl rfl)).1
      (by decide),
    (C3_device_found_rssi_threshold envOk addr0 (-50) BT_GAP_ADV_TYPE_ADV_IND
      { data := [4, 9, 68, 88, 67], __buf := some 1 } State.init rfl (Or.inl rfl)).2.1
      (by decide)⟩

/-- An element of any type other than "complete local name" makes `my_parse_cb` answer
"continue parsing" without any call or state change. -/
theorem my_parse_cb_other_type (env : Env) (addr : bt_addr_le_t) (data : bt_data) (s : State)
    (h : data.type ≠ BT_DATA_NAME_COMPLETE) :
    my_parse_cb env data addr s = some (true, s) := by
  simp [my_parse_cb, h]

/-- A "complete local name" element on which `strncmp` returns a non-zero value makes
`my_parse_cb` answer "continue parsing" without any call or state change. -/
theorem my_parse_cb_no_match (env : Env) (addr : bt_addr_le_t) (data : bt_data) (s : State)
    (c : Int) (h : strncmp bt_dname data.data data.data_len = some c) (hc : c ≠ 0) :
    my_parse_cb env data addr s = some (true, s) := by
  unfold my_parse_cb
  split
  · simp [h, hc]
  · rfl

/-- C4, evaluated at the names the claim says do not match: the one-byte name "D", the
empty name and the two-byte name "DX" are each treated as a match by `my_parse_cb`, which
stops scanning and issues the connect request (`strncmp` with the declared length as count
compares only that many bytes). -/
theorem C4_shorter_names_treated_as_match :
    my_parse_cb envOk { type := BT_DATA_NAME_COMPLETE, data_len := 1, data := [68] } addr0
        State.init
      = some (false, { State.init with
          default_conn := some 1
          trace := [.bt_le_scan_stop, .bt_conn_le_create addr0] }) ∧
    my_parse_cb envOk { type := BT_DATA_NAME_COMPLETE, data_len := 0, data := [] } addr0
        State.init
      = some (false, { State.init with
          default_conn := some 1
          trace := [.bt_le_scan_stop, .bt_conn_le_create addr0] }) ∧
    my_parse_cb envOk { type := BT_DATA_NAME_COMPLETE, data_len := 2, data := [68, 88] } addr0
        State.init
      = some (false, { State.init with
          default_conn := some 1
          trace := [.bt_le_scan_stop, .bt_conn_le_create addr0] }) := by
  refine ⟨?_, ?_, ?_⟩ <;> decide

/-- C5, evaluated with a stack whose `bt_conn_le_create` fails and with `true` as the value
read after the missing `return` of `my_parse_cb`. On a matching element "DXC" whose
stop-scan succeeds, `my_parse_cb` ends without a `return false`, and the caller reads
"continue parsing". For a payload with two "complete local name" elements "DXC" the second
element is then examined too, and the one report leads to two stop-scan and two connect
requests. -/
theorem C5_second_match_examined :
    my_parse_cb envCreateFails
        { type := BT_DATA_NAME_COMPLETE, data_len := 3, data := [68, 88, 67] } addr0 State.init
      = some (true, { State.init with
          trace := [.bt_le_scan_stop, .bt_conn_le_create addr0,
            .printk (.create_conn_failed (-12)),
            .bt_le_scan_start .device_found, .printk .scan_started] }) ∧
    device_found envCreateFails addr0 (-40) BT_GAP_ADV_TYPE_ADV_IND
        { data := [4, 9, 68, 88, 67, 4, 9, 68, 88, 67], __buf := some 1 } State.init
      = some { State.init with
          trace := [.printk (.device_found [] (-40)),
            .bt_data_parse [4, 9, 68, 88, 67, 4, 9, 68, 88, 67],
            .bt_le_scan_stop, .bt_conn_le_create addr0,
            .printk (.create_conn_failed (-12)),
            .bt_le_scan_start .device_found, .printk .scan_started,
            .bt_le_scan_stop, .bt_conn_le_create addr0,
            .printk (.create_conn_failed (-12)),
            .bt_le_scan_start .device_found, .printk .scan_started] } := by
  constructor <;> decide

/-- C6: for every "complete local name" element that `my_parse_cb` treats as a match
(`strncmp` returns 0) and every target address, if `bt_le_scan_stop` reports failure then
`my_parse_cb` returns `false` (stop parsing) and the only call it has made is that
stop-scan request: no `bt_conn_le_create`, no `bt_le_scan_start`, and `default_conn` and
the registry are as before. -/
theorem C6_scan_stop_failure_aborts (env : Env) (addr : bt_addr_le_t) (data : bt_data)
    (s : State) (htype : data.type = BT_DATA_NAME_COMPLETE)
    (hmatch : strncmp bt_dname data.data data.data_len = some 0)
    (hstop : env.bt_le_scan_stop s.trace ≠ 0) :
    my_parse_cb env data addr s
      = some (false, { default_conn := s.default_conn
                       address_list := s.address_list
                       address_list_iter := s.address_list_iter
                       trace := s.trace ++ [.bt_le_scan_stop] }) := by
  simp [my_parse_cb, htype, hmatch, hstop, State.log]

theorem C6_scan_stop_failure_aborts_witness :
    (BT_DATA_NAME_COMPLETE = BT_DATA_NAME_COMPLETE) ∧
    strncmp bt_dname [68, 88, 67] 3 = some 0 ∧
    envStopFails.bt_le_scan_stop State.init.trace ≠ 0 ∧
    my_parse_cb envStopFails { type := BT_DATA_NAME_COMPLETE, data_len := 3, data := [68, 88, 67] }
        addr0 State.init
      = some (false, { default_conn := none
                       address_list := State.init.address_list
                       address_list_iter := 0
                       trace := [.bt_le_scan_stop] }) :=
  ⟨rfl, by decide, by decide,
    C6_scan_stop_failure_aborts envStopFails addr0
      { type := BT_DATA_NAME_COMPLETE, data_len := 3, data := [68, 88, 67] } State.init
      rfl (by decide) (by decide)⟩

/-- C7: for every call `connected(conn, 0)` with `conn` equal to the tracked
`default_conn`, the calls made are the "Connected" line and exactly one
`bt_conn_disconnect(conn, BT_HCI_ERR_REMOTE_USER_TERM_CONN)`; no scan start is issued,
and `default_conn` (still `conn`) and the registry are unchanged. -/
theorem C7_connected_success_disconnects (env : Env) (conn : Option Nat) (s : State)
    (hconn : conn = s.default_conn) :
    connected env conn 0 s
      = { default_conn := conn
          address_list := s.address_list
          address_list_iter := s.address_list_iter
          trace := s.trace ++
            [.printk (.connected (env.bt_addr_le_to_str (env.bt_conn_get_dst conn))),
             .bt_conn_disconnect conn BT_HCI_ERR_REMOTE_USER_TERM_CONN] } := by
  simp [connected, hconn, State.log]

theorem C7_connected_success_disconnects_witness :
    some 1 = stateLive.default_conn ∧
    connected envOk (some 1) 0 stateLive
      = { default_conn := some 1
          address_list := stateLive.address_list
          address_list_iter := stateLive.address_list_iter
          trace := stateLive.trace ++
            [.printk (.connected (envOk.bt_addr_le_to_str (envOk.bt_conn_get_dst (some 1)))),
             .bt_conn_disconnect (some 1) BT_HCI_ERR_REMOTE_USER_TERM_CONN] } :=
  ⟨rfl, C7_connected_success_disconnects envOk (some 1) stateLive rfl⟩

/-- C8: for every call `disconnected(conn, reason)` with `conn` equal to the tracked
`default_conn`, the calls made are, in order: the "Disconnected" line, one
`bt_conn_unref` of the handle, one `bt_le_scan_start` with `device_found` as callback, and
the line reporting whether scanning started. Afterwards `default_conn` is `NULL`, and
`address_list` and `address_list_iter` are unchanged. -/
theorem C8_disconnected_releases_and_rearms (env : Env) (conn : Option Nat) (reason : Nat)
    (s : State) (hconn : conn = s.default_conn) :
    disconnected env conn reason s
      = { default_conn := none
          address_list := s.address_list
          address_list_iter := s.address_list_iter
          trace := s.trace ++
            [.printk (.disconnected (env.bt_addr_le_to_str (env.bt_conn_get_dst conn)) reason),
             .bt_conn_unref conn,
             .bt_le_scan_start .device_found,
             .printk
               (if env.bt_le_scan_start (s.trace ++
                    [.printk (.disconnected (env.bt_addr_le_to_str (env.bt_conn_get_dst conn))
                        reason),
                     .bt_conn_unref conn]) ≠ 0
                then .scan_failed (env.bt_le_scan_start (s.trace ++
                    [.printk (.disconnected (env.bt_addr_le_to_str (env.bt_conn_get_dst conn))
                        reason),
                     .bt_conn_unref conn]))
                else .scan_started)] } := by
  subst hconn
  unfold disconnected start_scan
  simp only [ne_eq, not_true_eq_false, if_false, State.log, List.append_assoc,
    List.singleton_append]
  split <;> simp_all

theorem C8_disconnected_releases_and_rearms_witness :
    some 1 = stateLive.default_conn ∧
    disconnected envOk (some 1) 0x13 stateLive
      = { default_conn := none
          address_list := stateLive.address_list
          address_list_iter := stateLive.address_list_iter
          trace :=
            [.printk (.disconnected [] 0x13), .bt_conn_unref (some 1),
             .bt_le_scan_start .device_found, .printk .scan_started] } :=
  ⟨rfl, C8_disconnected_releases_and_rearms envOk (some 1) 0x13 stateLive rfl⟩

/-- A `disconnected` callback for a handle other than the tracked one is ignored: the
state, history included, is returned as given. -/
theorem disconnected_stray_ignored (env : Env) (conn : Option Nat) (reason : Nat) (s : State)
    (h : conn ≠ s.default_conn) : disconnected env conn reason s = s := by
  simp [disconnected, h]

/-- A `connected` callback with status 0 for a handle other than the tracked one is
ignored: the state, history included, is returned as given. -/
theorem connected_stray_success_ignored (env : Env) (conn : Option Nat) (s : State)
    (h : conn ≠ s.default_conn) : connected env conn 0 s = s := by
  simp [connected, h]

/-- C9, evaluated at a stray callback with an error status: while handle 1 is tracked,
`connected(conn, 2)` for the different handle 2 is not ignored. The error branch of
`connected` runs before the identity check: the tracked handle 1 is released,
`default_conn` is set to `NULL` and a scan start is issued. -/
theorem C9_stray_error_callback_not_ignored :
    (some 2 : Option Nat) ≠ stateLive.default_conn ∧
    connected envOk (some 2) 2 stateLive
      = { default_conn := none
          address_list := stateLive.address_list
          address_list_iter := stateLive.address_list_iter
          trace :=
            [.printk (.failed_to_connect [] 2), .bt_conn_unref (some 1),
             .bt_le_scan_start .device_found, .printk .scan_started] } := by
  decide

/-- C10: for every call `connected(conn, err)` with `err` non-zero and `conn` equal to the
tracked `default_conn`, the calls made are, in order: the "Failed to connect" line, one
`bt_conn_unref` of the tracked handle, one `bt_le_scan_start` with `device_found` as
callback, and the line reporting whether scanning started; no `bt_conn_disconnect` is
issued. Afterwards `default_conn` is `NULL`; the registry is unchanged. -/
theorem C10_connected_error_releases_and_rearms (env : Env) (conn : Option Nat) (err : Nat)
    (s : State) (herr : err ≠ 0) (hconn : conn = s.default_conn) :
    connected env conn err s
      = { default_conn := none
          address_list := s.address_list
          address_list_iter := s.address_list_iter
          trace := s.trace ++
            [.printk (.failed_to_connect (env.bt_addr_le_to_str (env.bt_conn_get_dst conn)) err),
             .bt_conn_unref conn,
             .bt_le_scan_start .device_found,
             .printk
               (if env.bt_le_scan_start (s.trace ++
                    [.printk (.failed_to_connect
                        (env.bt_addr_le_to_str (env.bt_conn_get_dst conn)) err),
                     .bt_conn_unref conn]) ≠ 0
                then .scan_failed (env.bt_le_scan_start (s.trace ++
                    [.printk (.failed_to_connect
                        (env.bt_addr_le_to_str (env.bt_conn_get_dst conn)) err),
                     .bt_conn_unref conn]))
                else .scan_started)] } := by
  subst hconn
  unfold connected start_scan
  simp only [ne_eq, herr, not_false_eq_true, if_true, State.log, List.append_assoc,
    List.singleton_append]
  split <;> simp_all

theorem C10_connected_error_releases_and_rearms_witness :
    (0x3e : Nat) ≠ 0 ∧ some 1 = stateLive.default_conn ∧
    connected envOk (some 1) 0x3e stateLive
      = { default_conn := none
          address_list := stateLive.address_list
          address_list_iter := stateLive.address_list_iter
          trace :=
            [.printk (.failed_to_connect [] 0x3e), .bt_conn_unref (some 1),
             .bt_le_scan_start .device_found, .printk .scan_started] } :=
  ⟨by decide, rfl,
    C10_connected_error_releases_and_rearms envOk (some 1) 0x3e stateLive (by decide) rfl⟩

/-! ## Facts about the registry and the second scan callback -/

theorem start_scan_registry (env : Env) (s : State) :
    (start_scan env s).address_list = s.address_list ∧
    (start_scan env s).address_list_iter = s.address_list_iter ∧
    (start_scan env s).default_conn = s.default_conn := by
  unfold start_scan
  dsimp only
  split <;> simp [State.log]

theorem bt_conn_le_create_registry (env : Env) (addr : bt_addr_le_t) (s : State) :
    (bt_conn_le_create env addr s).2.address_list = s.address_list ∧
    (bt_conn_le_create env addr s).2.address_list_iter = s.address_list_iter := by
  unfold bt_conn_le_create
  dsimp only
  split <;> simp [State.log]

/-- On an element backed by `data_len` bytes `my_parse_cb` returns; it leaves the registry
as it was and makes no `bt_data_parse` call. -/
theorem my_parse_cb_registry (env : Env) (addr : bt_addr_le_t) (data : bt_data) (s : State)
    (h : data.data_len ≤ data.data.length) :
    ∃ b s', my_parse_cb env data addr s = some (b, s') ∧
      (s'.address_list = s.address_list ∧ s'.address_list_iter = s.address_list_iter ∧
        s'.trace.countP Event.isParse = s.trace.countP Event.isParse) := by
  obtain ⟨b, s', hs', hcount⟩ := my_parse_cb_defined env addr data s h
  refine ⟨b, s', hs', ?_, ?_, hcount⟩
  · unfold my_parse_cb at hs'
    split at hs'
    · split at hs'
      · simp at hs'
      · split at hs'
        · split at hs'
          · simp only [Option.some.injEq, Prod.mk.injEq] at hs'
            rw [← hs'.2]
            rfl
          · simp only [Option.some.injEq, Prod.mk.injEq] at hs'
            rw [← hs'.2]
            split
            · rw [(start_scan_registry env _).1]
              exact (bt_conn_le_create_registry env addr _).1
            · exact (bt_conn_le_create_registry env addr _).1
        · simp only [Option.some.injEq, Prod.mk.injEq] at hs'
          rw [← hs'.2]
    · simp only [Option.some.injEq, Prod.mk.injEq] at hs'
      rw [← hs'.2]
  · unfold my_parse_cb at hs'
    split at hs'
    · split at hs'
      · simp at hs'
      · split at hs'
        · split at hs'
          · simp only [Option.some.injEq, Prod.mk.injEq] at hs'
            rw [← hs'.2]
            rfl
          · simp only [Option.some.injEq, Prod.mk.injEq] at hs'
            rw [← hs'.2]
            split
            · rw [(start_scan_registry env _).2.1]
              exact (bt_conn_le_create_registry env addr _).2
            · exact (bt_conn_le_create_registry env addr _).2
        · simp only [Option.some.injEq, Prod.mk.injEq] at hs'
          rw [← hs'.2]
    · simp only [Option.some.injEq, Prod.mk.injEq] at hs'
      rw [← hs'.2]

/-- The pass of `bt_data_parse` with `my_parse_cb` always returns; it leaves the registry as
it was and the history gains exactly one `bt_data_parse` call. -/
theorem bt_data_parse_registry (env : Env) (addr : bt_addr_le_t) (ad : net_buf_simple)
    (s : State) :
    ∃ s', bt_data_parse ad (fun data => my_parse_cb env data addr) s = some s' ∧
      s'.address_list = s.address_list ∧ s'.address_list_iter = s.address_list_iter ∧
      s'.trace.countP Event.isParse = s.trace.countP Event.isParse + 1 := by
  obtain ⟨s', hs', h1, h2, h3⟩ := bt_data_parse_loop_inv (fun data => my_parse_cb env data addr)
    (fun a b => b.address_list = a.address_list ∧ b.address_list_iter = a.address_list_iter ∧
      b.trace.countP Event.isParse = a.trace.countP Event.isParse)
    (fun _ => ⟨rfl, rfl, rfl⟩)
    (fun a b c h1 h2 => ⟨h2.1.trans h1.1, h2.2.1.trans h1.2.1, h2.2.2.trans h1.2.2⟩)
    (fun data s h => my_parse_cb_registry env addr data s h)
    ad.data.length ad.data (s.log (.bt_data_parse ad.data))
  refine ⟨s', hs', h1, h2, ?_⟩
  rw [h3]
  simp [log_countP_isParse, Event.isParse]

/-! ## The claims, continued -/

/-- What `my_parse_cb` does when the connect request fails, from any state: for every element
it treats as a match, with `bt_le_scan_stop` succeeding and `bt_conn_le_create` returning a
non-zero error, the calls made are stop-scan, the connect request, the "Create conn ...
failed" line, one `bt_le_scan_start` and the line reporting whether scanning started;
`default_conn` and the registry are not written. -/
theorem my_parse_cb_connect_failure (env : Env) (addr : bt_addr_le_t) (data : bt_data)
    (s : State) (htype : data.type = BT_DATA_NAME_COMPLETE)
    (hmatch : strncmp bt_dname data.data data.data_len = some 0)
    (hstop : env.bt_le_scan_stop s.trace = 0)
    (herr : (env.bt_conn_le_create (s.trace ++ [.bt_le_scan_stop]) addr).1 ≠ 0) :
    ∃ m : Msg,
      (m = .scan_started ∨ ∃ e : Int, e ≠ 0 ∧ m = .scan_failed e) ∧
      ∃ b : Bool, my_parse_cb env data addr s
        = some (b, { default_conn := s.default_conn
                     address_list := s.address_list
                     address_list_iter := s.address_list_iter
                     trace := s.trace ++
                       [.bt_le_scan_stop, .bt_conn_le_create addr,
                        .printk (.create_conn_failed
                          (env.bt_conn_le_create (s.trace ++ [.bt_le_scan_stop]) addr).1),
                        .bt_le_scan_start .device_found, .printk m] }) := by
  by_cases hss : env.bt_le_scan_start (s.trace ++ [.bt_le_scan_stop, .bt_conn_le_create addr,
      .printk (.create_conn_failed
        (env.bt_conn_le_create (s.trace ++ [.bt_le_scan_stop]) addr).1)]) = 0
  · refine ⟨.scan_started, Or.inl rfl, ?_⟩
    simp [my_parse_cb, htype, hmatch, hstop, herr, bt_conn_le_create, start_scan, State.log,
      hss]
  · refine ⟨.scan_failed (env.bt_le_scan_start (s.trace ++
      [.bt_le_scan_stop, .bt_conn_le_create addr,
        .printk (.create_conn_failed
          (env.bt_conn_le_create (s.trace ++ [.bt_le_scan_stop]) addr).1)])),
      Or.inr ⟨_, hss, rfl⟩, ?_⟩
    simp [my_parse_cb, htype, hmatch, hstop, herr, bt_conn_le_create, start_scan, State.log,
      hss]

/-- C11: for every element that `my_parse_cb` treats as a match and every target address,
entered with no connection tracked (`default_conn` is `NULL`, as `device_found` and
`my_devices_found` have it when they start the parse): if `bt_le_scan_stop` succeeds and
`bt_conn_le_create` returns a non-zero error, the calls made are, in order, stop-scan, the
connect request, the "Create conn ... failed" line, exactly one `bt_le_scan_start` (the one
of `start_scan`, with `device_found` as callback) and the line reporting whether scanning
started. Afterwards `default_conn` is `NULL` (the session is Idle) and the registry is
unchanged. -/
theorem C11_connect_failure_rearms (env : Env) (addr : bt_addr_le_t) (data : bt_data)
    (s : State) (hidle : s.default_conn = none)
    (htype : data.type = BT_DATA_NAME_COMPLETE)
    (hmatch : strncmp bt_dname data.data data.data_len = some 0)
    (hstop : env.bt_le_scan_stop s.trace = 0)
    (herr : (env.bt_conn_le_create (s.trace ++ [.bt_le_scan_stop]) addr).1 ≠ 0) :
    ∃ m : Msg,
      (m = .scan_started ∨ ∃ e : Int, e ≠ 0 ∧ m = .scan_failed e) ∧
      ∃ b : Bool, my_parse_cb env data addr s
        = some (b, { default_conn := none
                     address_list := s.address_list
                     address_list_iter := s.address_list_iter
                     trace := s.trace ++
                       [.bt_le_scan_stop, .bt_conn_le_create addr,
                        .printk (.create_conn_failed
                          (env.bt_conn_le_create (s.trace ++ [.bt_le_scan_stop]) addr).1),
                        .bt_le_scan_start .device_found, .printk m] }) := by
  obtain ⟨m, hm, b, hb⟩ := my_parse_cb_connect_failure env addr data s htype hmatch hstop herr
  rw [hidle] at hb
  exact ⟨m, hm, b, hb⟩

theorem C11_connect_failure_rearms_witness :
    State.init.default_conn = none ∧
    (BT_DATA_NAME_COMPLETE = BT_DATA_NAME_COMPLETE) ∧
    strncmp bt_dname [68, 88, 67] 3 = some 0 ∧
    envCreateFails.bt_le_scan_stop State.init.trace = 0 ∧
    (envCreateFails.bt_conn_le_create (State.init.trace ++ [.bt_le_scan_stop]) addr0).1 ≠ 0 ∧
    ∃ m : Msg,
      (m = .scan_started ∨ ∃ e : Int, e ≠ 0 ∧ m = .scan_failed e) ∧
      ∃ b : Bool, my_parse_cb envCreateFails
          { type := BT_DATA_NAME_COMPLETE, data_len := 3, data := [68, 88, 67] } addr0 State.init
        = some (b, { default_conn := none
                     address_list := State.init.address_list
                     address_list_iter := State.init.address_list_iter
                     trace := State.init.trace ++
                       [.bt_le_scan_stop, .bt_conn_le_create addr0,
                        .printk (.create_conn_failed
                          (envCreateFails.bt_conn_le_create
                            (State.init.trace ++ [.bt_le_scan_stop]) addr0).1),
                        .bt_le_scan_start .device_found, .printk m] }) :=
  ⟨rfl, rfl, by decide, by decide, by decide,
    C11_connect_failure_rearms envCreateFails addr0
      { type := BT_DATA_NAME_COMPLETE, data_len := 3, data := [68, 88, 67] } State.init
      rfl rfl (by decide) (by decide) (by decide)⟩

/-- What `my_devices_found` does to the registry. It always returns. A report that passes
the buffer, type, signal-strength and capacity checks is recorded before the payload is
parsed: the first byte of slot `address_list_iter` is written and the counter grows by one.
Every other report leaves the registry as it was. -/
theorem my_devices_found_registry (env : Env) (addr : bt_addr_le_t) (rssi : Int) (type : Nat)
    (ad : net_buf_simple) (s : State) :
    ∃ b s', my_devices_found env addr rssi type ad s = some (b, s') ∧
      if ad.__buf ≠ none ∧
          (type = BT_GAP_ADV_TYPE_ADV_IND ∨ type = BT_GAP_ADV_TYPE_ADV_DIRECT_IND) ∧
          -50 ≤ rssi ∧ s.address_list_iter < 3 then
        b = true ∧ s'.address_list_iter = s.address_list_iter + 1 ∧
        s'.address_list = address_list_set s.address_list s.address_list_iter 0
          ((env.bt_addr_le_to_str addr).headD 0)
      else
        s'.address_list_iter = s.address_list_iter ∧ s'.address_list = s.address_list := by
  by_cases hbuf : ad.__buf = none
  · exact ⟨false, s, by simp [my_devices_found, hbuf], by simp [hbuf]⟩
  · by_cases hty : type ≠ BT_GAP_ADV_TYPE_ADV_IND ∧ type ≠ BT_GAP_ADV_TYPE_ADV_DIRECT_IND
    · refine ⟨true, { s with default_conn := none }, by simp [my_devices_found, hbuf, hty], ?_⟩
      have : ¬ (type = BT_GAP_ADV_TYPE_ADV_IND ∨ type = BT_GAP_ADV_TYPE_ADV_DIRECT_IND) := by
        rintro (h | h)
        · exact hty.1 h
        · exact hty.2 h
      simp [this]
    · have hty' : type = BT_GAP_ADV_TYPE_ADV_IND ∨ type = BT_GAP_ADV_TYPE_ADV_DIRECT_IND := by
        by_contra hc
        exact hty ⟨fun h => hc (Or.inl h), fun h => hc (Or.inr h)⟩
      by_cases hrssi : rssi < -50
      · refine ⟨true, _, by
          simp only [my_devices_found, hbuf, hty, hrssi, if_true, if_false]
          rfl, ?_⟩
        have : ¬ (-50 ≤ rssi) := not_le.mpr hrssi
        simp [this, State.log]
      · by_cases hfull : s.address_list_iter ≥ 3
        · refine ⟨false, _, by
            simp only [my_devices_found, hbuf, hty, hrssi, if_false, State.log, hfull,
              if_true]
            rfl, ?_⟩
          have : ¬ (s.address_list_iter < 3) := by omega
          simp [this]
        · obtain ⟨s3, hs3, hal, hit, _⟩ := bt_data_parse_registry env addr ad
            { default_conn := none
              address_list := address_list_set s.address_list s.address_list_iter 0
                ((env.bt_addr_le_to_str addr).headD 0)
              address_list_iter := s.address_list_iter + 1
              trace := s.trace ++
                [.printk (.device_found (env.bt_addr_le_to_str addr) rssi)] }
          refine ⟨true, s3, by
            simp only [my_devices_found, hbuf, hty, hrssi, if_false, State.log, hfull, hs3], ?_⟩
          have h1 : s.address_list_iter < 3 := by omega
          have h2 : -50 ≤ rssi := not_lt.mp hrssi
          simp [hbuf, hty', h1, h2, hal, hit]

/-- The function `device_found` always returns, and it leaves the registry as it was. -/
theorem device_found_registry (env : Env) (addr : bt_addr_le_t) (rssi : Int) (type : Nat)
    (ad : net_buf_simple) (s : State) :
    ∃ s', device_found env addr rssi type ad s = some s' ∧
      s'.address_list = s.address_list ∧ s'.address_list_iter = s.address_list_iter := by
  unfold device_found
  split
  · exact ⟨s, rfl, rfl, rfl⟩
  · split
    · exact ⟨s, rfl, rfl, rfl⟩
    · dsimp only
      split
      · exact ⟨_, rfl, rfl, rfl⟩
      · obtain ⟨s', hs', h1, h2, _⟩ := bt_data_parse_registry env addr ad
          (s.log (.printk (.device_found (env.bt_addr_le_to_str addr) rssi)))
        exact ⟨s', hs', h1, h2⟩

/-- Whether `multi_connect` returns or hits the depth bound, the state it ends in has the
registry and `default_conn` it started with. -/
theorem multi_connect_registry (env : Env) :
    ∀ (depth : Nat) (s s' : State),
      (multi_connect env depth s = .ok s' ∨ multi_connect env depth s = .error s') →
      s'.address_list = s.address_list ∧ s'.address_list_iter = s.address_list_iter ∧
        s'.default_conn = s.default_conn := by
  intro depth
  induction depth with
  | zero =>
    intro s s' h
    simp only [multi_connect] at h
    rcases h with h | h
    · cases h
    · cases h
      exact ⟨rfl, rfl, rfl⟩
  | succ depth ih =>
    intro s s' h
    simp only [multi_connect, if_true] at h
    split at h
    · rcases h with h | h
      · cases h
        exact ⟨rfl, rfl, rfl⟩
      · cases h
    · exact ih ((s.log (.bt_le_scan_start (.new_device true))).log (.printk .scan_started)) s' h

theorem connected_registry (env : Env) (conn : Option Nat) (err : Nat) (s : State) :
    (connected env conn err s).address_list = s.address_list ∧
    (connected env conn err s).address_list_iter = s.address_list_iter := by
  unfold connected
  dsimp only
  split
  · exact ⟨(start_scan_registry env _).1, (start_scan_registry env _).2.1⟩
  · split <;> exact ⟨rfl, rfl⟩

theorem disconnected_registry (env : Env) (conn : Option Nat) (reason : Nat) (s : State) :
    (disconnected env conn reason s).address_list = s.address_list ∧
    (disconnected env conn reason s).address_list_iter = s.address_list_iter := by
  unfold disconnected
  split
  · exact ⟨rfl, rfl⟩
  · exact ⟨(start_scan_registry env _).1, (start_scan_registry env _).2.1⟩

/-- C12: `address_list_iter` is 0 in the initial state, and from every state with
`address_list_iter ≤ 3` each of `device_found`, `my_devices_found`, `my_parse_cb` (on an
element backed by its declared length), `connected`, `disconnected`, `start_scan` and
`multi_connect` (whether it returns or is still recursing at the depth bound) ends in a
state with `address_list_iter ≤ 3`; the first three always return. In particular, with
`address_list_iter = 3` a connectable report with RSSI at least -50 delivered to
`my_devices_found` returns `false`, leaves `address_list` and `address_list_iter` as they
were, and makes no call beyond the "Device found" line: no `bt_data_parse`, no connect. -/
theorem C12_registry_bound (env : Env) (addr : bt_addr_le_t) (rssi : Int) (type : Nat)
    (ad : net_buf_simple) (data : bt_data) (conn : Option Nat) (err reason depth : Nat)
    (s : State) (h : s.address_list_iter ≤ 3) (hdata : data.data_len ≤ data.data.length) :
    State.init.address_list_iter = 0 ∧
    (∃ s', device_found env addr rssi type ad s = some s' ∧ s'.address_list_iter ≤ 3) ∧
    (∃ b s', my_devices_found env addr rssi type ad s = some (b, s') ∧
      s'.address_list_iter ≤ 3) ∧
    (∃ b s', my_parse_cb env data addr s = some (b, s') ∧ s'.address_list_iter ≤ 3) ∧
    (connected env conn err s).address_list_iter ≤ 3 ∧
    (disconnected env conn reason s).address_list_iter ≤ 3 ∧
    (start_scan env s).address_list_iter ≤ 3 ∧
    (∀ s', (multi_connect env depth s = .ok s' ∨ multi_connect env depth s = .error s') →
      s'.address_list_iter ≤ 3) ∧
    (s.address_list_iter = 3 →
      (type = BT_GAP_ADV_TYPE_ADV_IND ∨ type = BT_GAP_ADV_TYPE_ADV_DIRECT_IND) →
      -50 ≤ rssi →
      ∃ s', my_devices_found env addr rssi type ad s = some (false, s') ∧
        s'.address_list = s.address_list ∧ s'.address_list_iter = 3 ∧
        (s'.trace = s.trace ∨
          s'.trace = s.trace ++
            [.printk (.device_found (env.bt_addr_le_to_str addr) rssi)])) := by
  refine ⟨rfl, ?_, ?_, ?_, ?_, ?_, ?_, ?_, ?_⟩
  · obtain ⟨s', hs', _, hit⟩ := device_found_registry env addr rssi type ad s
    exact ⟨s', hs', by omega⟩
  · obtain ⟨b, s', hs', hreg⟩ := my_devices_found_registry env addr rssi type ad s
    refine ⟨b, s', hs', ?_⟩
    split at hreg
    · rename_i hc
      have := hc.2.2.2
      omega
    · omega
  · obtain ⟨b, s', hs', _, hit, _⟩ := my_parse_cb_registry env addr data s hdata
    exact ⟨b, s', hs', by omega⟩
  · rw [(connected_registry env conn err s).2]
    exact h
  · rw [(disconnected_registry env conn reason s).2]
    exact h
  · rw [(start_scan_registry env s).2.1]
    exact h
  · intro s' hs'
    rw [(multi_connect_registry env depth s s' hs').2.1]
    exact h
  · intro hfull hty hrssi
    have hty' : ¬ (type ≠ BT_GAP_ADV_TYPE_ADV_IND ∧ type ≠ BT_GAP_ADV_TYPE_ADV_DIRECT_IND) := by
      rcases hty with h1 | h1 <;> simp [h1]
    by_cases hbuf : ad.__buf = none
    · exact ⟨s, by simp [my_devices_found, hbuf], rfl, hfull, Or.inl rfl⟩
    · refine ⟨{ default_conn := none
                address_list := s.address_list
                address_list_iter := s.address_list_iter
                trace := s.trace ++
                  [.printk (.device_found (env.bt_addr_le_to_str addr) rssi)] }, ?_, rfl, hfull,
        Or.inr rfl⟩
      simp [my_devices_found, hbuf, hty', not_lt.mpr hrssi, State.log, hfull]

theorem C12_registry_bound_witness :
    stateFull.address_list_iter ≤ 3 ∧
    (3 : Nat) ≤ [68, 88, 67].length ∧
    ∃ s', my_devices_found envOk addr0 (-40) BT_GAP_ADV_TYPE_ADV_IND
        { data := [4, 9, 68, 88, 67], __buf := some 1 } stateFull = some (false, s') ∧
      s'.address_list = stateFull.address_list ∧ s'.address_list_iter = 3 ∧
      (s'.trace = stateFull.trace ∨
        s'.trace = stateFull.trace ++
          [.printk (.device_found (envOk.bt_addr_le_to_str addr0) (-40))]) :=
  ⟨by decide, by decide,
    (C12_registry_bound envOk addr0 (-40) BT_GAP_ADV_TYPE_ADV_IND
      { data := [4, 9, 68, 88, 67], __buf := some 1 }
      { type := BT_DATA_NAME_COMPLETE, data_len := 3, data := [68, 88, 67] }
      (some 1) 0 0 1 stateFull (by decide) (by decide)).2.2.2.2.2.2.2.2
      rfl (Or.inl rfl) (by decide)⟩

/-- C13, evaluated at reports for which no connection is established: `my_devices_found`
counts a device before its payload is parsed. From the initial state one connectable report
at -40 dBm leaves `address_list_iter = 1` when the payload holds no name element at all
(only a flags element), when stop-scan fails, and when the connect request fails. Three
reports without a name element fill the registry without any connect request, and the
report of a device named "DXC" that follows is refused. -/
theorem C13_counted_without_connect_cycle :
    my_devices_found envOk addr0 (-40) BT_GAP_ADV_TYPE_ADV_IND
        { data := [2, 1, 6], __buf := some 1 } State.init
      = some (true, { State.init with
          address_list_iter := 1
          trace := [.printk (.device_found [] (-40)), .bt_data_parse [2, 1, 6]] }) ∧
    my_devices_found envStopFails addr0 (-40) BT_GAP_ADV_TYPE_ADV_IND
        { data := [4, 9, 68, 88, 67], __buf := some 1 } State.init
      = some (true, { State.init with
          address_list_iter := 1
          trace := [.printk (.device_found [] (-40)), .bt_data_parse [4, 9, 68, 88, 67],
            .bt_le_scan_stop] }) ∧
    my_devices_found envCreateFails addr0 (-40) BT_GAP_ADV_TYPE_ADV_IND
        { data := [4, 9, 68, 88, 67], __buf := some 1 } State.init
      = some (true, { State.init with
          address_list_iter := 1
          trace := [.printk (.device_found [] (-40)), .bt_data_parse [4, 9, 68, 88, 67],
            .bt_le_scan_stop, .bt_conn_le_create addr0,
            .printk (.create_conn_failed (-12)),
            .bt_le_scan_start .device_found, .printk .scan_started] }) ∧
    ((my_devices_found envOk addr0 (-40) BT_GAP_ADV_TYPE_ADV_IND
        { data := [2, 1, 6], __buf := some 1 } State.init).bind fun r1 =>
      (my_devices_found envOk addr0 (-40) BT_GAP_ADV_TYPE_ADV_IND
        { data := [2, 1, 6], __buf := some 1 } r1.2).bind fun r2 =>
      (my_devices_found envOk addr0 (-40) BT_GAP_ADV_TYPE_ADV_IND
        { data := [2, 1, 6], __buf := some 1 } r2.2).bind fun r3 =>
      my_devices_found envOk addr0 (-40) BT_GAP_ADV_TYPE_ADV_IND
        { data := [4, 9, 68, 88, 67], __buf := some 1 } r3.2)
      = some (false, { State.init with
          address_list_iter := 3
          trace := [.printk (.device_found [] (-40)), .bt_data_parse [2, 1, 6],
            .printk (.device_found [] (-40)), .bt_data_parse [2, 1, 6],
            .printk (.device_found [] (-40)), .bt_data_parse [2, 1, 6],
            .printk (.device_found [] (-40))] }) := by
  refine ⟨?_, ?_, ?_, ?_⟩ <;> decide

/-- C14, evaluated at the first recorded report, for a stack that renders the address as
"C0:FF:EE": slot 0 of `address_list` holds the single character 'C' followed by the
zeros it was initialised with, not the rendered string (`address_list[k][0] = *addr_str`
copies one character). The counter is 1 and the other slots are unchanged. -/
theorem C14_only_first_character_stored :
    envRender.bt_addr_le_to_str addr0 = [67, 48, 58, 70, 70, 58, 69, 69] ∧
    my_devices_found envRender addr0 (-40) BT_GAP_ADV_TYPE_ADV_IND
        { data := [4, 9, 68, 88, 67], __buf := some 1 } State.init
      = some (true,
          { default_conn := some 1
            address_list :=
              [67 :: List.replicate 29 0, List.replicate 30 0, List.replicate 30 0]
            address_list_iter := 1
            trace := [.printk (.device_found [67, 48, 58, 70, 70, 58, 69, 69] (-40)),
              .bt_data_parse [4, 9, 68, 88, 67],
              .bt_le_scan_stop, .bt_conn_le_create addr0] }) := by
  refine ⟨rfl, ?_⟩
  decide

/-- C15, as stated, fails for `my_devices_found`: with handle 7 tracked, a report of
non-connectable type sets `default_conn` to `NULL`, and a matching connectable report leads
to a stop-scan and a connect request and replaces the tracked handle 7 by the new handle 1,
without any teardown of the connection with handle 7. -/
theorem C15_live_session_overwritten :
    my_devices_found envOk addr0 (-30) 3 { data := [4, 9, 68, 88, 67], __buf := some 1 }
        stateLive7
      = some (true, { stateLive7 with default_conn := none }) ∧
    my_devices_found envOk addr0 (-40) BT_GAP_ADV_TYPE_ADV_IND
        { data := [4, 9, 68, 88, 67], __buf := some 1 } stateLive7
      = some (true, { State.init with
          default_conn := some 1
          address_list_iter := 1
          trace := [.printk (.device_found [] (-40)), .bt_data_parse [4, 9, 68, 88, 67],
            .bt_le_scan_stop, .bt_conn_le_create addr0] }) := by
  constructor <;> decide

/-- C15, amended: for every report delivered while `default_conn` is not `NULL` on entry,
`device_found` makes no call and returns the state as it is; `my_devices_found` returns
`false` with the state as it is when the buffer pointer of the report is `NULL`, and for
every other report it first sets `default_conn` to `NULL` and then does exactly what it
does from the Idle state: the connection tracked on entry does not hold back stop-scan or
connect there. -/
theorem C15_my_devices_found_ignores_live_session (env : Env) (addr : bt_addr_le_t)
    (rssi : Int) (type : Nat) (ad : net_buf_simple) (s : State)
    (hlive : s.default_conn ≠ none) :
    device_found env addr rssi type ad s = some s ∧
    (ad.__buf = none → my_devices_found env addr rssi type ad s = some (false, s)) ∧
    (ad.__buf ≠ none →
      my_devices_found env addr rssi type ad s
        = my_devices_found env addr rssi type ad { s with default_conn := none }) := by
  refine ⟨by simp [device_found, hlive], ?_, ?_⟩
  · intro hbuf
    simp [my_devices_found, hbuf]
  · intro hbuf
    simp only [my_devices_found, hbuf, if_false]

theorem C15_my_devices_found_ignores_live_session_witness :
    stateLive7.default_conn ≠ none ∧
    my_devices_found envOk addr0 (-40) BT_GAP_ADV_TYPE_ADV_IND
        { data := [4, 9, 68, 88, 67], __buf := some 1 } stateLive7
      = my_devices_found envOk addr0 (-40) BT_GAP_ADV_TYPE_ADV_IND
        { data := [4, 9, 68, 88, 67], __buf := some 1 }
        { stateLive7 with default_conn := none } :=
  ⟨by decide,
    (C15_my_devices_found_ignores_live_session envOk addr0 (-40) BT_GAP_ADV_TYPE_ADV_IND
      { data := [4, 9, 68, 88, 67], __buf := some 1 } stateLive7 (by decide)).2.2 (by decide)⟩

/-- C16, as stated, fails: entered with a full registry, `multi_connect` issues a scan
start. With a stack whose `bt_le_scan_start` fails, the one invocation makes that request,
prints the failure and returns. -/
theorem C16_full_registry_scan_started :
    stateFull.address_list_iter = 3 ∧
    multi_connect envScanStartFails 1 stateFull
      = .ok { stateFull with
          trace := [.bt_le_scan_start (.new_device true), .printk (.scan_failed (-120))] } := by
  exact ⟨rfl, rfl⟩

/-- Whether `multi_connect` returns or hits the depth bound, the history it ends with
extends the history it started with. -/
theorem multi_connect_trace_extends (env : Env) :
    ∀ (depth : Nat) (s : State), ∃ r rest,
      (multi_connect env depth s = .ok r ∨ multi_connect env depth s = .error r) ∧
      r.trace = s.trace ++ rest := by
  intro depth
  induction depth with
  | zero =>
    intro s
    exact ⟨s, [], Or.inr rfl, by simp⟩
  | succ depth ih =>
    intro s
    by_cases herr : env.bt_le_scan_start s.trace = 0
    · obtain ⟨r, rest, hr, htr⟩ :=
        ih ((s.log (.bt_le_scan_start (.new_device true))).log (.printk .scan_started))
      refine ⟨r, [.bt_le_scan_start (.new_device true), .printk .scan_started] ++ rest, ?_, ?_⟩
      · simpa [multi_connect, herr] using hr
      · rw [htr]
        simp [State.log]
    · refine ⟨(s.log (.bt_le_scan_start (.new_device true))).log
          (.printk (.scan_failed (env.bt_le_scan_start s.trace))),
        [.bt_le_scan_start (.new_device true),
          .printk (.scan_failed (env.bt_le_scan_start s.trace))], Or.inl ?_, ?_⟩
      · simp only [multi_connect, ne_eq, herr, not_false_eq_true, if_true]
      · simp [State.log]

/-- C16, amended: entered with a full registry, `multi_connect` still issues a
`bt_le_scan_start` as its first call (it never reads `address_list_iter`); if that request
fails, `multi_connect` prints the failure and returns without recursing, with the registry
and `default_conn` untouched. -/
theorem C16_multi_connect_full_registry (env : Env) (depth : Nat) (s : State)
    (hfull : s.address_list_iter = 3) :
    (∃ r rest,
      (multi_connect env (depth + 1) s = .ok r ∨ multi_connect env (depth + 1) s = .error r) ∧
      r.trace = s.trace ++ .bt_le_scan_start (.new_device true) :: rest) ∧
    (env.bt_le_scan_start s.trace ≠ 0 →
      multi_connect env (depth + 1) s
        = .ok { default_conn := s.default_conn
                address_list := s.address_list
                address_list_iter := 3
                trace := s.trace ++
                  [.bt_le_scan_start (.new_device true),
                   .printk (.scan_failed (env.bt_le_scan_start s.trace))] }) := by
  constructor
  · by_cases herr : env.bt_le_scan_start s.trace = 0
    · obtain ⟨r, rest, hr, htr⟩ := multi_connect_trace_extends env depth
        ((s.log (.bt_le_scan_start (.new_device true))).log (.printk .scan_started))
      refine ⟨r, .printk .scan_started :: rest, ?_, ?_⟩
      · simpa [multi_connect, herr] using hr
      · rw [htr]
        simp [State.log]
    · refine ⟨(s.log (.bt_le_scan_start (.new_device true))).log
          (.printk (.scan_failed (env.bt_le_scan_start s.trace))),
        [.printk (.scan_failed (env.bt_le_scan_start s.trace))], Or.inl ?_, ?_⟩
      · simp only [multi_connect, ne_eq, herr, not_false_eq_true, if_true]
      · simp [State.log]
  · intro herr
    simp [multi_connect, herr, State.log, hfull]

theorem C16_multi_connect_full_registry_witness :
    stateFull.address_list_iter = 3 ∧
    multi_connect envScanStartFails (0 + 1) stateFull
      = .ok { default_conn := stateFull.default_conn
              address_list := stateFull.address_list
              address_list_iter := 3
              trace := stateFull.trace ++
                [.bt_le_scan_start (.new_device true),
                 .printk (.scan_failed (envScanStartFails.bt_le_scan_start stateFull.trace))] } :=
  ⟨rfl, (C16_multi_connect_full_registry envScanStartFails 0 stateFull rfl).2 (by decide)⟩

/-- After a successful scan start `multi_connect` always recurses: with a stack whose
`bt_le_scan_start` always succeeds, the depth bound is hit for every bound, after one scan
start per nested invocation. -/
theorem multi_connect_recurses (env : Env) (hok : ∀ tr, env.bt_le_scan_start tr = 0) :
    ∀ (depth : Nat) (s : State),
      multi_connect env depth s
        = .error { s with trace := s.trace ++ nestedScanStarts depth } := by
  intro depth
  induction depth with
  | zero =>
    intro s
    simp [multi_connect, nestedScanStarts]
  | succ depth ih =>
    intro s
    simp [multi_connect, hok, ih, State.log, nestedScanStarts]

/-- The completion line "all compatible devices have been added" is never printed by
`multi_connect`. -/
theorem multi_connect_never_completes (env : Env) :
    ∀ (depth : Nat) (s s' : State),
      (multi_connect env depth s = .ok s' ∨ multi_connect env depth s = .error s') →
      s'.trace.count (.printk .all_added) = s.trace.count (.printk .all_added) := by
  intro depth
  induction depth with
  | zero =>
    intro s s' h
    simp only [multi_connect] at h
    rcases h with h | h
    · cases h
    · cases h
      rfl
  | succ depth ih =>
    intro s s' h
    simp only [multi_connect, if_true] at h
    split at h
    · rcases h with h | h
      · cases h
        simp [State.log, List.count_append]
      · cases h
    · rw [ih ((s.log (.bt_le_scan_start (.new_device true))).log (.printk .scan_started)) s' h]
      simp [State.log, List.count_append]

/-- C17, evaluated with a stack whose `bt_le_scan_start` always succeeds: whatever
`my_devices_found` would return, `multi_connect` recurses after every scan start. For every
depth bound the bound is hit, with one scan start issued per nested invocation, and for
every stack the completion line is never printed: `new_device` holds the converted
function pointer, not a value returned by `my_devices_found`. -/
theorem C17_multi_connect_never_stops :
    (∀ depth : Nat, multi_connect envOk depth State.init
      = .error { State.init with trace := nestedScanStarts depth }) ∧
    (∀ depth : Nat, (nestedScanStarts depth).countP Event.isScanStart = depth) ∧
    (∀ (env : Env) (depth : Nat) (s s' : State),
      (multi_connect env depth s = .ok s' ∨ multi_connect env depth s = .error s') →
      s'.trace.count (.printk .all_added) = s.trace.count (.printk .all_added)) := by
  refine ⟨?_, ?_, multi_connect_never_completes⟩
  · intro depth
    have h := multi_connect_recurses envOk (fun _ => rfl) depth State.init
    simpa [State.init] using h
  · intro depth
    induction depth with
    | zero => rfl
    | succ depth ih =>
      simp [nestedScanStarts, List.countP_cons, Event.isScanStart, ih]

/-- What `my_devices_found` does in Scenario A: from the initial state, for a report with a
buffer, type connectable-undirected, -40 dBm and the single payload element "complete local
name = DXC", with stop-scan and connect succeeding. The value read after the missing
`return` of `my_parse_cb` makes no difference: no element follows. -/
theorem my_devices_found_scenario_A (env : Env) (addr : bt_addr_le_t) (h : Nat)
    (ad : net_buf_simple) (hbuf : ad.__buf ≠ none) (hpayload : ad.data = [4, 9, 68, 88, 67])
    (hstop : ∀ tr, env.bt_le_scan_stop tr = 0)
    (hcreate : ∀ tr a, env.bt_conn_le_create tr a = (0, h)) :
    my_devices_found env addr (-40) BT_GAP_ADV_TYPE_ADV_IND ad State.init
      = some (true,
          { default_conn := some h
            address_list := address_list_set State.init.address_list 0 0
              ((env.bt_addr_le_to_str addr).headD 0)
            address_list_iter := 1
            trace := [.printk (.device_found (env.bt_addr_le_to_str addr) (-40)),
              .bt_data_parse [4, 9, 68, 88, 67],
              .bt_le_scan_stop, .bt_conn_le_create addr] }) := by
  cases hi : env.indeterminate
      [.printk (.device_found (env.bt_addr_le_to_str addr) (-40)),
        .bt_data_parse [4, 9, 68, 88, 67], .bt_le_scan_stop, .bt_conn_le_create addr] <;>
    simp [my_devices_found, hbuf, hpayload, BT_GAP_ADV_TYPE_ADV_IND, State.init, State.log,
      bt_data_parse, bt_data_parse_loop, my_parse_cb, BT_DATA_NAME_COMPLETE, strncmp,
      bt_dname, hstop, hcreate, bt_conn_le_create, hi]

/-- C18 (Scenario A): for every device address, link handle and disconnect reason, and
every stack whose stop-scan succeeds and whose connect succeeds with that handle: from the
initial state, the report (buffer present, connectable-undirected, -40 dBm, payload "complete
local name = DXC") delivered to `my_devices_found` is accepted and leaves `default_conn`
at the handle; `connected(handle, 0)` keeps it there; `disconnected(handle, reason)` ends
with `default_conn = NULL` and `address_list_iter = 1`. The requests to the radio over the
three callbacks are, in this order, stop-scan, connect(address), disconnect(handle) and
start-scan. -/
theorem C18_scenario_A (env : Env) (addr : bt_addr_le_t) (h reason : Nat)
    (ad : net_buf_simple) (hbuf : ad.__buf ≠ none) (hpayload : ad.data = [4, 9, 68, 88, 67])
    (hstop : ∀ tr, env.bt_le_scan_stop tr = 0)
    (hcreate : ∀ tr a, env.bt_conn_le_create tr a = (0, h)) :
    ∃ s1, my_devices_found env addr (-40) BT_GAP_ADV_TYPE_ADV_IND ad State.init
        = some (true, s1) ∧
      s1.default_conn = some h ∧
      (connected env (some h) 0 s1).default_conn = some h ∧
      (disconnected env (some h) reason (connected env (some h) 0 s1)).default_conn = none ∧
      (disconnected env (some h) reason (connected env (some h) 0 s1)).address_list_iter = 1 ∧
      (disconnected env (some h) reason (connected env (some h) 0 s1)).trace.filter
          Event.isRequest
        = [.bt_le_scan_stop, .bt_conn_le_create addr,
           .bt_conn_disconnect (some h) BT_HCI_ERR_REMOTE_USER_TERM_CONN,
           .bt_le_scan_start .device_found] := by
  refine ⟨_, my_devices_found_scenario_A env addr h ad hbuf hpayload hstop hcreate, rfl, ?_, ?_,
    ?_, ?_⟩
  · simp [connected, State.log]
  · simp only [connected, disconnected, State.log, ne_eq, not_true_eq_false, if_false]
    exact (start_scan_registry env _).2.2
  · simp only [connected, disconnected, State.log, ne_eq, not_true_eq_false, if_false]
    exact (start_scan_registry env _).2.1
  · simp only [connected, disconnected, State.log, ne_eq, not_true_eq_false, if_false,
      start_scan]
    split <;> simp [List.filter_cons, Event.isRequest]

theorem C18_scenario_A_witness :
    ({ data := [4, 9, 68, 88, 67], __buf := some 1 } : net_buf_simple).__buf ≠ none ∧
    (∀ tr, envOk.bt_le_scan_stop tr = 0) ∧
    (∀ tr a, envOk.bt_conn_le_create tr a = (0, 1)) ∧
    ∃ s1, my_devices_found envOk addr0 (-40) BT_GAP_ADV_TYPE_ADV_IND
        { data := [4, 9, 68, 88, 67], __buf := some 1 } State.init = some (true, s1) ∧
      s1.default_conn = some 1 ∧
      (connected envOk (some 1) 0 s1).default_conn = some 1 ∧
      (disconnected envOk (some 1) 0x13 (connected envOk (some 1) 0 s1)).default_conn = none ∧
      (disconnected envOk (some 1) 0x13 (connected envOk (some 1) 0 s1)).address_list_iter
        = 1 ∧
      (disconnected envOk (some 1) 0x13 (connected envOk (some 1) 0 s1)).trace.filter
          Event.isRequest
        = [.bt_le_scan_stop, .bt_conn_le_create addr0,
           .bt_conn_disconnect (some 1) BT_HCI_ERR_REMOTE_USER_TERM_CONN,
           .bt_le_scan_start .device_found] :=
  ⟨by decide, fun _ => rfl, fun _ _ => rfl,
    C18_scenario_A envOk addr0 1 0x13 { data := [4, 9, 68, 88, 67], __buf := some 1 }
      (by decide) rfl (fun _ => rfl) (fun _ _ => rfl)⟩

/-! ## The name comparison -/

/-- The model's `strncmp` never looks at a character of its second argument at or beyond
the count: cutting the second argument off at the count changes nothing. -/
theorem strncmp_take (s1 : List Nat) :
    ∀ (s2 : List Nat) (n : Nat), strncmp s1 (s2.take n) n = strncmp s1 s2 n := by
  induction s1 with
  | nil =>
    intro s2 n
    cases n with
    | zero => simp [strncmp]
    | succ n => cases s2 <;> simp [strncmp]
  | cons c1 t ih =>
    intro s2 n
    cases n with
    | zero => simp [strncmp]
    | succ n =>
      cases s2 with
      | nil => simp [strncmp]
      | cons c2 t2 => simp [strncmp, ih]

/-- Against the four bytes of `bt_dname` the comparison is the comparison of at most four
characters: the NUL that ends `bt_dname` stops it. -/
theorem strncmp_bt_dname_clamp (data : List Nat) (n : Nat) (hlen : n ≤ data.length) :
    strncmp bt_dname data n = strncmp bt_dname (data.take (min n 4)) (min n 4) := by
  rcases n with _ | _ | _ | _ | _ | n
  · simp [strncmp]
  · simpa using (strncmp_take bt_dname data 1).symm
  · simpa using (strncmp_take bt_dname data 2).symm
  · simpa using (strncmp_take bt_dname data 3).symm
  · simpa using (strncmp_take bt_dname data 4).symm
  · have h4 : min (n + 5) 4 = 4 := by omega
    rw [h4]
    match data, hlen with
    | a :: b :: c :: d :: e :: t, _ =>
      simp only [strncmp, bt_dname, List.take]
      split_ifs <;> simp_all

theorem strncmp_bt_dname_eq_zero_iff (d : List Nat) (n : Nat) (hlen : n ≤ d.length) :
    strncmp bt_dname d n = some 0 ↔ d.take (min n 4) = bt_dname.take (min n 4) := by
  rcases n with _ | _ | _ | _ | n
  · simp [strncmp]
  · match d, hlen with
    | a :: t, _ =>
      simp only [strncmp, bt_dname]
      split_ifs with h1 h2
      · simp_all
        omega
      · exact h2.elim
      · simp_all
  · match d, hlen with
    | a :: b :: t, _ =>
      simp only [strncmp, bt_dname]
      split_ifs <;> simp_all <;> omega
  · match d, hlen with
    | a :: b :: c :: t, _ =>
      simp only [strncmp, bt_dname]
      split_ifs <;> simp_all <;> omega
  · have h4 : min (n + 4) 4 = 4 := by omega
    rw [h4]
    match d, hlen with
    | a :: b :: c :: e :: t, _ =>
      simp only [strncmp, bt_dname]
      split_ifs <;> simp_all <;> omega

theorem take_eq_take_iff_getElem? (l1 l2 : List Nat) (k : Nat) :
    l1.take k = l2.take k ↔ ∀ i, i < k → l1[i]? = l2[i]? := by
  constructor
  · intro h i hi
    have := congrArg (fun l => l[i]?) h
    simpa [List.getElem?_take, hi] using this
  · intro h
    apply List.ext_getElem?
    intro i
    by_cases hi : i < k
    · simpa [List.getElem?_take, hi] using h i hi
    · simp [List.getElem?_take, hi]

/-- C19: for every "complete local name" element with declared length `n` backed by at
least `n` data bytes, the comparison `strncmp(bt_dname, data, n)` of `my_parse_cb` has a
defined result on the four bytes of `bt_dname` and the first `n` bytes of the element
alone: no byte of `bt_dname` at index 4 or beyond and no element byte at index `n` or
beyond is read. The result is the one of comparing the first `min n 4` element bytes, and
`my_parse_cb` returns on the element. This holds for every `n`, so for 0..255. -/
theorem C19_name_comparison_in_bounds (env : Env) (addr : bt_addr_le_t) (s : State)
    (data : List Nat) (n : Nat) (hlen : n ≤ data.length) :
    bt_dname.length = 4 ∧
    (∃ c, strncmp bt_dname (data.take n) n = some c ∧ strncmp bt_dname data n = some c ∧
      strncmp bt_dname (data.take (min n 4)) (min n 4) = some c) ∧
    ∃ r, my_parse_cb env { type := BT_DATA_NAME_COMPLETE, data_len := n, data := data.take n }
      addr s = some r := by
  have hlen' : n ≤ (data.take n).length := by
    rw [List.length_take]
    omega
  refine ⟨rfl, ?_, ?_⟩
  · obtain ⟨c, hc⟩ := strncmp_isSome bt_dname (by simp [bt_dname]) (data.take n) n hlen'
    refine ⟨c, hc, ?_, ?_⟩
    · rw [← strncmp_take]
      exact hc
    · rw [← strncmp_bt_dname_clamp data n hlen, ← strncmp_take]
      exact hc
  · obtain ⟨b, s', hs', _⟩ := my_parse_cb_defined env addr
      { type := BT_DATA_NAME_COMPLETE, data_len := n, data := data.take n } s hlen'
    exact ⟨(b, s'), hs'⟩

theorem C19_name_comparison_in_bounds_witness :
    (5 : Nat) ≤ [68, 88, 67, 0, 65, 66].length ∧
    bt_dname.length = 4 ∧
    (∃ c, strncmp bt_dname ([68, 88, 67, 0, 65, 66].take 5) 5 = some c ∧
      strncmp bt_dname [68, 88, 67, 0, 65, 66] 5 = some c ∧
      strncmp bt_dname ([68, 88, 67, 0, 65, 66].take (min 5 4)) (min 5 4) = some c) ∧
    ∃ r, my_parse_cb envOk
      { type := BT_DATA_NAME_COMPLETE, data_len := 5,
        data := [68, 88, 67, 0, 65, 66].take 5 }
      addr0 State.init = some r :=
  ⟨by decide, C19_name_comparison_in_bounds envOk addr0 State.init
    [68, 88, 67, 0, 65, 66] 5 (by decide)⟩

theorem start_scan_trace (env : Env) (s : State) :
    ∃ m, (start_scan env s).trace = s.trace ++ [.bt_le_scan_start .device_found, .printk m] := by
  unfold start_scan
  dsimp only
  split
  · exact ⟨.scan_failed (env.bt_le_scan_start s.trace), by simp [State.log]⟩
  · exact ⟨.scan_started, by simp [State.log]⟩

theorem bt_conn_le_create_trace (env : Env) (addr : bt_addr_le_t) (s : State) :
    (bt_conn_le_create env addr s).2.trace = s.trace ++ [.bt_conn_le_create addr] := by
  unfold bt_conn_le_create
  dsimp only
  split <;> simp [State.log]

/-- On a "complete local name" element `my_parse_cb` goes on to `bt_le_scan_stop` exactly
when `strncmp` returns 0; otherwise it answers "continue parsing" and calls nothing. -/
theorem my_parse_cb_name_element (env : Env) (addr : bt_addr_le_t) (s : State)
    (d : List Nat) (n : Nat) :
    (strncmp bt_dname d n = some 0 →
      ∃ b s', my_parse_cb env { type := BT_DATA_NAME_COMPLETE, data_len := n, data := d }
          addr s = some (b, s') ∧
        (s.trace ++ [.bt_le_scan_stop]) <+: s'.trace) ∧
    (∀ c, strncmp bt_dname d n = some c → c ≠ 0 →
      my_parse_cb env { type := BT_DATA_NAME_COMPLETE, data_len := n, data := d } addr s
        = some (true, s)) := by
  constructor
  · intro hm
    unfold my_parse_cb
    simp only [hm, if_true]
    split
    · exact ⟨_, _, rfl, by simp [State.log]⟩
    · refine ⟨_, _, rfl, ?_⟩
      split
      · obtain ⟨m, hm'⟩ := start_scan_trace env
          ((bt_conn_le_create env addr (s.log .bt_le_scan_stop)).2.log
            (.printk (.create_conn_failed
              (bt_conn_le_create env addr (s.log .bt_le_scan_stop)).1)))
        rw [hm']
        simp only [State.log, bt_conn_le_create_trace, List.append_assoc]
        exact ⟨_, (List.append_assoc _ _ _)⟩
      · rw [bt_conn_le_create_trace]
        simp only [State.log, List.append_assoc]
        exact ⟨_, (List.append_assoc _ _ _)⟩
  · intro c hc hc0
    simp [my_parse_cb, hc, hc0]

/-- C20: for every "complete local name" element with data `d` and declared length `n`
(backed by `n` bytes), `strncmp(bt_dname, d, n)` is 0 if and only if `d[i]` equals the
`i`-th byte of "DXC\0" for every `i < min n 4`. For `n ≤ 3` this is: the first `n` bytes
of `d` are the first `n` bytes of "DXC" (so the empty name, "D" and "DX" match); for
`n ≥ 4` it is: `d` begins 'D', 'X', 'C', NUL (so "DXC1" does not match). That value being 0
is what makes `my_parse_cb` go on to stop-scan; otherwise it answers "continue parsing". -/
theorem C20_match_condition (env : Env) (addr : bt_addr_le_t) (s : State)
    (d : List Nat) (n : Nat) (hlen : n ≤ d.length) :
    (strncmp bt_dname d n = some 0 ↔ ∀ i, i < min n 4 → d[i]? = bt_dname[i]?) ∧
    (n ≤ 3 → (strncmp bt_dname d n = some 0 ↔ d.take n = [68, 88, 67].take n)) ∧
    (4 ≤ n → (strncmp bt_dname d n = some 0 ↔ d.take 4 = [68, 88, 67, 0])) ∧
    (strncmp bt_dname d n = some 0 →
      ∃ b s', my_parse_cb env { type := BT_DATA_NAME_COMPLETE, data_len := n, data := d }
          addr s = some (b, s') ∧
        (s.trace ++ [.bt_le_scan_stop]) <+: s'.trace) ∧
    (strncmp bt_dname d n ≠ some 0 →
      my_parse_cb env { type := BT_DATA_NAME_COMPLETE, data_len := n, data := d } addr s
        = some (true, s)) := by
  have hcore := strncmp_bt_dname_eq_zero_iff d n hlen
  refine ⟨?_, ?_, ?_, (my_parse_cb_name_element env addr s d n).1, ?_⟩
  · rw [hcore]
    exact take_eq_take_iff_getElem? d bt_dname (min n 4)
  · intro h3
    rw [hcore]
    have hmin : min n 4 = n := by omega
    rw [hmin]
    rcases n with _ | _ | _ | _ | n
    · simp
    · simp [bt_dname]
    · simp [bt_dname]
    · simp [bt_dname]
    · omega
  · intro h4
    rw [hcore]
    have hmin : min n 4 = 4 := by omega
    rw [hmin]
    simp [bt_dname]
  · intro hne
    obtain ⟨c, hc⟩ := strncmp_isSome bt_dname (by simp [bt_dname]) d n hlen
    have hc0 : c ≠ 0 := by
      intro h0
      exact hne (by rw [hc, h0])
    exact (my_parse_cb_name_element env addr s d n).2 c hc hc0

theorem C20_match_condition_witness :
    (4 : Nat) ≤ [68, 88, 67, 49].length ∧ (1 : Nat) ≤ [68].length ∧
    (strncmp bt_dname [68, 88, 67, 49] 4 = some 0 ↔ [68, 88, 67, 49].take 4 = [68, 88, 67, 0]) ∧
    (strncmp bt_dname [68] 1 = some 0 ↔ [68].take 1 = [68, 88, 67].take 1) :=
  ⟨by decide, by decide,
    (C20_match_condition envOk addr0 State.init [68, 88, 67, 49] 4 (by decide)).2.2.1
      (by decide),
    (C20_match_condition envOk addr0 State.init [68] 1 (by decide)).2.1 (by decide)⟩

end BleCentral
